import Mathlib

/-!
Verification development for the CSS audit / rename toolkit
(`css_audit.py` and `rename_css_classes.py`).

Python strings are modelled as `String` / `List Char` (Python string
indices are code-point offsets, matching `List Char` positions).
Python `set` objects of strings are modelled as `Finset String`; where
the Python code aliases one mutable set object between several map
entries, the model uses an explicit heap (`List (Finset String)`) with
references (`Nat` indices), so that in-place `set.update` mutation is
reproduced faithfully.
-/

/-- Python `s.startswith(pre)`. -/
def pyStartswith (s pre : String) : Bool := pre.toList.isPrefixOf s.toList

/-- Python `\s` and `str.strip()` whitespace (the ASCII range; the scanned
    sources are ASCII). -/
def pySpace (c : Char) : Bool :=
  c = ' ' || c = '\t' || c = '\n' || c = '\r' || c = Char.ofNat 11 || c = Char.ofNat 12

/-- Python `s.strip()`. -/
def pyStrip (s : String) : String :=
  (((s.toList.dropWhile pySpace).reverse.dropWhile pySpace).reverse).asString

/-- Python string `<`: lexicographic comparison by code point. -/
def pyStrLt : List Char → List Char → Bool
  | [], [] => false
  | [], _ :: _ => true
  | _ :: _, [] => false
  | x :: xs, y :: ys =>
    if x.toNat < y.toNat then true
    else if y.toNat < x.toNat then false
    else pyStrLt xs ys

/-! ## css_audit.py — risk classification (lines 27-39, 398-406) -/

/-- `HIGH_RISK_PROPS` from css_audit.py lines 27-33 (a Python set literal;
    modelled as the list of its elements — only membership is ever used). -/
def HIGH_RISK_PROPS : List String :=
  ["display", "position", "float", "flex", "flex-direction", "flex-wrap",
   "flex-flow", "flex-grow", "flex-shrink", "flex-basis", "grid", "grid-template",
   "grid-template-columns", "grid-template-rows", "grid-column", "grid-row",
   "width", "height", "min-width", "min-height", "max-width", "max-height",
   "overflow", "overflow-x", "overflow-y", "margin", "padding"]

/-- `MED_RISK_PROPS` from css_audit.py lines 35-39. -/
def MED_RISK_PROPS : List String :=
  ["margin-top", "margin-right", "margin-bottom", "margin-left",
   "padding-top", "padding-right", "padding-bottom", "padding-left",
   "margin-inline", "margin-block", "padding-inline", "padding-block"]

/-- `decl.split(':')[0].strip()` (css_audit.py line 401): the part of the
    declaration string before the first colon, with surrounding whitespace
    stripped. -/
def propOf (decl : String) : String :=
  pyStrip (decl.toList.takeWhile (fun c => !(c = ':'))).asString

/-- `prop in HIGH_RISK_PROPS or any(prop.startswith(p+'-') for p in HIGH_RISK_PROPS)`
    (css_audit.py line 402). -/
def isHighRisk (prop : String) : Bool :=
  HIGH_RISK_PROPS.any (fun p => p == prop)
    || HIGH_RISK_PROPS.any (fun p => pyStartswith prop (p ++ "-"))

/-- `prop in MED_RISK_PROPS or any(prop.startswith(p+'-') for p in MED_RISK_PROPS)`
    (css_audit.py line 404). -/
def isMedRisk (prop : String) : Bool :=
  MED_RISK_PROPS.any (fun p => p == prop)
    || MED_RISK_PROPS.any (fun p => pyStartswith prop (p ++ "-"))

/-- `classify_risk` (css_audit.py lines 398-406).  The Python iterates a
    `set`, whose iteration order is unspecified; the model takes the
    declarations as a list in an arbitrary order, so every theorem about
    a particular input holds for the iteration order given, and
    order-independence is checked by supplying permutations explicitly. -/
def classify_risk : List String → String
  | [] => "LOW"
  | decl :: rest =>
    let prop := propOf decl
    if isHighRisk prop then "HIGH"
    else if isMedRisk prop then "MEDIUM"
    else classify_risk rest

/-! ## css_audit.py — CSS class extraction (lines 247-295)

`cssutils` parsing is external library code; the model starts from the
parsed representation it hands to the loop at lines 259-290: a list of
rules, each being either a style rule (with its selector list and its
style items) or a non-style rule, which the loop skips. -/

/-- One item of `rule.style`: a CSS comment (skipped at line 275) or a
    property with `prop.name` and `prop.value`. -/
inductive StyleItem where
  | comment (text : String)
  | decl (name value : String)
deriving DecidableEq

/-- One parsed rule of the stylesheet.  `isStyle` is
    `rule.type == cssutils.css.CSSRule.STYLE_RULE` (line 261). -/
structure CSSRule where
  isStyle : Bool
  selectors : List String
  style : List StyleItem
deriving DecidableEq

/-- Lines 272-276: the fresh `declarations` set built for a selector,
    containing `f"{prop.name}: {prop.value}"` for every non-comment item. -/
def serializeDecls (items : List StyleItem) : Finset String :=
  items.foldl (fun s it =>
    match it with
    | .comment _ => s
    | .decl n v => insert (n ++ ": " ++ v) s) ∅

/-- `[a-zA-Z0-9_-]` of the selector regex at line 266. -/
def identChar (c : Char) : Bool := c.isAlphanum || c = '_' || c = '-'

/-- `[a-zA-Z-]` of the pseudo-class suffix in the regex at line 266. -/
def pseudoChar (c : Char) : Bool := c.isAlpha || c = '-'

/-- The optional `(?:::?[a-zA-Z-]+)?` suffix of the regex at line 266:
    after a matched class token, one or two colons followed by at least one
    pseudo character are consumed greedily; otherwise nothing is consumed. -/
def skipPseudo (l : List Char) : List Char :=
  match l with
  | c1 :: c2 :: rest =>
    if c1 = ':' then
      if c2 = ':' then
        if (rest.takeWhile pseudoChar).isEmpty then l else rest.dropWhile pseudoChar
      else
        if ((c2 :: rest).takeWhile pseudoChar).isEmpty then l
        else (c2 :: rest).dropWhile pseudoChar
    else l
  | _ => l

/-- `re.findall(r'\.([a-zA-Z0-9_-]+)(?:::?[a-zA-Z-]+)?', selector_text)`
    (line 266): scan left to right; at each literal dot take the maximal
    run of ident characters as a captured class token, then skip an
    optional pseudo suffix and continue after the match.  The fuel is the
    input length plus one; every step consumes at least one character, so
    it never runs out. -/
def cssTokensAux : Nat → List Char → List String
  | 0, _ => []
  | _, [] => []
  | fuel + 1, c :: rest =>
    if c = '.' then
      let nm := rest.takeWhile identChar
      if nm.isEmpty then cssTokensAux fuel rest
      else nm.asString :: cssTokensAux fuel (skipPseudo (rest.dropWhile identChar))
    else cssTokensAux fuel rest

/-- The class tokens the audit extracts from one selector string. -/
def cssClassTokens (sel : String) : List String :=
  cssTokensAux (sel.length + 1) sel.toList

/-- One entry of `class_map` (css_audit.py lines 280-290).  The
    `declarations` field of the Python dict holds a *reference* to a set
    object (the same object can be shared by several entries, because the
    per-selector `declarations` set is stored by reference for every class
    that is new in that selector); `declsRef` is the index of that object
    in the heap.  `files` and `selectors` are fresh per entry (`{source_file}`
    and `{selector_text}` literals are evaluated per class), so they are
    plain values. -/
structure CSSEntry where
  declsRef : Nat
  files : Finset String
  selectors : Finset String
  count : Nat
deriving DecidableEq

/-- The extraction state: the heap of mutable declaration-set objects and
    the class map. -/
structure ExtState where
  heap : List (Finset String)
  classMap : String → Option CSSEntry

/-- Read a heap cell. -/
def heapGet (h : List (Finset String)) (i : Nat) : Finset String := (h.get? i).getD ∅

/-- Lines 279-290, body of `for class_name in class_matches`: a new class
    stores a reference to the current selector's `declarations` object;
    an existing class mutates, in place, the object its entry references
    (`class_map[class_name]['declarations'].update(declarations)`) and adds
    the file and the selector to its own sets. -/
def processClass (declsRef : Nat) (src sel : String) (st : ExtState) (c : String) : ExtState :=
  match st.classMap c with
  | none =>
    { st with classMap := fun k =>
        if k = c then some ⟨declsRef, {src}, {sel}, 0⟩ else st.classMap k }
  | some e =>
    { heap := st.heap.set e.declsRef
        (heapGet st.heap e.declsRef ∪ heapGet st.heap declsRef),
      classMap := fun k =>
        if k = c then some { e with files := insert src e.files,
                                    selectors := insert sel e.selectors }
        else st.classMap k }

/-- Lines 262-290, body of `for selector in rule.selectorList`: extract the
    class tokens; if none, skip; otherwise allocate the fresh
    `declarations` set object for this selector and process every token
    against it. -/
def processSelector (src : String) (ruleDecls : Finset String) (sel : String)
    (st : ExtState) : ExtState :=
  let ts := cssClassTokens sel
  if ts.isEmpty then st
  else
    let r := st.heap.length
    ts.foldl (processClass r src sel) { st with heap := st.heap ++ [ruleDecls] }

/-- Lines 259-290, body of `for rule in stylesheet`: non-style rules are
    skipped entirely. -/
def processRule (src : String) (st : ExtState) (r : CSSRule) : ExtState :=
  if r.isStyle then
    r.selectors.foldl (fun st sel => processSelector src (serializeDecls r.style) sel st) st
  else st

/-- `extract_classes_from_css` (css_audit.py lines 247-295) applied to an
    already-parsed stylesheet.  `src` is `os.path.basename(css_file)`. -/
def extract_classes_from_css (src : String) (rules : List CSSRule) : ExtState :=
  rules.foldl (processRule src) ⟨[], fun _ => none⟩

/-- The declaration set a class record denotes: the current contents of
    the heap object its entry references (empty for absent classes). -/
def declsOf (st : ExtState) (c : String) : Finset String :=
  match st.classMap c with
  | none => ∅
  | some e => heapGet st.heap e.declsRef

/-! ## css_audit.py — duplicate detection (lines 548-562)

`hash_declarations` feeds `''.join(sorted(list(declarations)))` to
`hashlib.md5(...).hexdigest()`.  `hashlib` is external library code; the
md5 hexdigest is modelled as an injective function of its input string,
i.e. the canonical key is the joined sorted concatenation itself
(md5 collisions are abstracted away as the spec demands only a
collision-avoiding content hash). -/

/-- The Python string order `<` as a propositional relation (`pyLe a b`
    is Python `a <= b`, i.e. not `b < a`). -/
def pyLe (a b : String) : Prop := pyStrLt b.toList a.toList = false

instance : DecidableRel pyLe := fun a b =>
  inferInstanceAs (Decidable (pyStrLt b.toList a.toList = false))

/-- `hash_declarations` (css_audit.py lines 548-551):
    `sorted(list(declarations))` is the ascending code-point sort of the
    declaration set's elements, listed here in the arbitrary order Python's
    `list(set)` produces (the theorems prove the result does not depend on
    it); the md5 hexdigest of the joined string is modelled as an injective
    function, i.e. the canonical key is the joined sorted string itself. -/
def hash_declarations (declarations : List String) : String :=
  String.join (declarations.insertionSort pyLe)

/-- `find_duplicate_rules` (css_audit.py lines 553-562).  The `class_map`
    dict is modelled as an association list of
    (class name, declaration set) in iteration order; the result maps each
    hash to the classes bearing it, keeping only groups with at least two
    members. -/
def find_duplicate_rules (class_map : List (String × List String)) :
    List (String × List String) :=
  let keys := (class_map.map (fun p => hash_declarations p.2)).dedup
  (keys.map (fun h =>
      (h, (class_map.filter (fun p => decide (hash_declarations p.2 = h))).map Prod.fst))).filter
    (fun g => decide (1 < g.2.length))

/-- Two classes land in one reported duplicate group. -/
def inSameDuplicateGroup (class_map : List (String × List String)) (c1 c2 : String) : Bool :=
  (find_duplicate_rules class_map).any
    (fun g => g.2.any (fun x => decide (x = c1)) && g.2.any (fun x => decide (x = c2)))

/-! ## rename_css_classes.py — reference extraction (lines 86-137)

The nine patterns of `find_class_references` use only these regex
constructs: literals, single-character classes, alternation,
greedy `*`/`+` over a character class, greedy optional groups, capturing
groups, and `\b`.  The matcher below implements Python `re` backtracking
semantics for exactly these constructs: alternatives are tried left to
right, quantifiers longest first, and the first complete match wins. -/

/-- Regex abstract syntax for the pattern set of `find_class_references`. -/
inductive Rx where
  | epsR
  | lit (cs : List Char)
  | cls (p : Char → Bool)
  | seqR (a b : Rx)
  | altR (a b : Rx)
  | optR (a : Rx)
  | starC (p : Char → Bool)
  | plusC (p : Char → Bool)
  | grp (idx : Nat) (a : Rx)
  | wordB

/-- Python `\w` for `\b` purposes: `[a-zA-Z0-9_]` (ASCII inputs only). -/
def isWordChar (c : Char) : Bool := c.isAlphanum || c = '_'

/-- Python `\b`: a word/non-word transition at position `i` (positions
    outside the string count as non-word). -/
def wordBoundaryAt (s : List Char) (i : Nat) : Bool :=
  let before := match i with
    | 0 => false
    | j + 1 => match s.get? j with
      | some c => isWordChar c
      | none => false
  let after := match s.get? i with
    | some c => isWordChar c
    | none => false
  before != after

/-- Captured group spans: (group index, start, end), most recent first. -/
def GroupList : Type := List (Nat × Nat × Nat)

/-- Greedy `*` over a character class: try consuming `n` characters first,
    then `n-1`, …, then `0`. -/
def tryCounts (i : Nat) (g : GroupList) (k : Nat → GroupList → Option (Nat × GroupList)) :
    Nat → Option (Nat × GroupList)
  | 0 => k i g
  | n + 1 =>
    match k (i + n + 1) g with
    | some r => some r
    | none => tryCounts i g k n

/-- Greedy `+` over a character class: like `tryCounts`, but at least one
    character must be consumed. -/
def tryCountsPos (i : Nat) (g : GroupList) (k : Nat → GroupList → Option (Nat × GroupList)) :
    Nat → Option (Nat × GroupList)
  | 0 => none
  | n + 1 =>
    match k (i + n + 1) g with
    | some r => some r
    | none => tryCountsPos i g k n

/-- Backtracking matcher in continuation style: `matchRx re s i g k` tries
    to match `re` at position `i` of `s`, calling the continuation `k`
    with the end position and captured groups of each candidate in
    Python's preference order; the first success wins. -/
def matchRx : Rx → List Char → Nat → GroupList →
    (Nat → GroupList → Option (Nat × GroupList)) → Option (Nat × GroupList)
  | .epsR, _, i, g, k => k i g
  | .lit cs, s, i, g, k =>
    if (s.drop i).take cs.length = cs then k (i + cs.length) g else none
  | .cls p, s, i, g, k =>
    match s.get? i with
    | some c => if p c then k (i + 1) g else none
    | none => none
  | .seqR a b, s, i, g, k => matchRx a s i g (fun j g2 => matchRx b s j g2 k)
  | .altR a b, s, i, g, k =>
    match matchRx a s i g k with
    | some r => some r
    | none => matchRx b s i g k
  | .optR a, s, i, g, k =>
    match matchRx a s i g k with
    | some r => some r
    | none => k i g
  | .starC p, s, i, g, k => tryCounts i g k ((s.drop i).takeWhile p).length
  | .plusC p, s, i, g, k => tryCountsPos i g k ((s.drop i).takeWhile p).length
  | .grp idx a, s, i, g, k => matchRx a s i g (fun j g2 => k j ((idx, i, j) :: g2))
  | .wordB, s, i, g, k => if wordBoundaryAt s i then k i g else none

/-- Anchored match attempt at position `i`; returns end position and groups. -/
def matchAt (re : Rx) (s : List Char) (i : Nat) : Option (Nat × GroupList) :=
  matchRx re s i [] (fun j g => some (j, g))

/-- `pattern.finditer(content)`: scan left to right, yield non-overlapping
    matches, resuming after each match (advancing one position after an
    empty match, which the nine patterns can never produce).  The fuel
    `s.length + 1` covers every start position. -/
def finditerAux (re : Rx) (s : List Char) : Nat → Nat → List (Nat × Nat × GroupList)
  | _, 0 => []
  | i, fuel + 1 =>
    if s.length < i then []
    else
      match matchAt re s i with
      | some (e, g) => (i, e, g) :: finditerAux re s (max e (i + 1)) fuel
      | none => finditerAux re s (i + 1) fuel

/-- All matches of `re` in `s`, Python `finditer` order. -/
def finditer (re : Rx) (s : List Char) : List (Nat × Nat × GroupList) :=
  finditerAux re s 0 (s.length + 1)

/-- `match.lastindex`: the index of the most recently completed capturing
    group (0 encodes Python's `None`; the nine patterns always capture at
    least one group on success). -/
def lastGroupIndex (g : GroupList) : Nat :=
  match g with
  | [] => 0
  | e :: _ => e.1

/-- `match.start(idx)` and `match.end(idx)`: the latest recorded span of
    group `idx`. -/
def groupSpan (g : GroupList) (idx : Nat) : Option (Nat × Nat) :=
  (g.find? (fun e => e.1 == idx)).map (fun e => e.2)

/-- Pattern helpers. -/
def seqList (l : List Rx) : Rx := l.foldr .seqR .epsR

/-- Left-biased alternation list. -/
def altList : List Rx → Rx
  | [] => .epsR
  | [r] => r
  | r :: rs => .altR r (altList rs)

/-- Literal string. -/
def litS (s : String) : Rx := .lit s.toList

/-- The apostrophe character. -/
def aposChar : Char := Char.ofNat 39

/-- The backtick character. -/
def btickChar : Char := Char.ofNat 96

/-- Character class of a quote: apostrophe or double quote. -/
def quoteC (c : Char) : Bool := c = aposChar || c = '"'

/-- Negated quote class `[^'"]`. -/
def notQuoteC (c : Char) : Bool := !(quoteC c)

/-- Quote class of pattern 2, which also accepts a backtick. -/
def quoteBC (c : Char) : Bool := c = aposChar || c = '"' || c = btickChar

/-- The closing class of patterns 4 and 7: quote, whitespace or a closing
    parenthesis. -/
def quoteSpParen (c : Char) : Bool := quoteC c || pySpace c || c = ')'

/-- The shared quoted-value core of patterns 1, 2, 3, 6 and 8:
    `(?:[^'"]*\s+)?\b(name)\b(?:\s+[^'"]*)?` with the class name captured
    in group `gi`. -/
def wordInValue (name : String) (gi : Nat) : Rx :=
  seqList [.optR (seqList [.starC notQuoteC, .plusC pySpace]),
           .wordB, .grp gi (litS name), .wordB,
           .optR (seqList [.plusC pySpace, .starC notQuoteC])]

/-- Pattern 1, `'JSX attribute'` (rename_css_classes.py line 96). -/
def pat1 (name : String) : Rx :=
  seqList [.grp 1 (.altR (litS "class") (litS "className")),
           .starC pySpace, litS "=", .starC pySpace,
           .cls quoteC, wordInValue name 2, .cls quoteC]

/-- Pattern 2, `'JSX expression'` (line 99). -/
def pat2 (name : String) : Rx :=
  seqList [.grp 1 (.altR (litS "class") (litS "className")),
           .starC pySpace, litS "=", .starC pySpace,
           litS "\x7b", .starC pySpace,
           .cls quoteBC, wordInValue name 2, .cls quoteBC]

/-- Pattern 3, `'classList method'` (line 102). -/
def pat3 (name : String) : Rx :=
  seqList [litS "classList.",
           .grp 1 (altList [litS "add", litS "remove", litS "toggle",
                            litS "contains", litS "replace"]),
           litS "(", .starC pySpace,
           .cls quoteC, wordInValue name 2, .cls quoteC]

/-- Pattern 4, `'querySelector'` (line 105). -/
def pat4 (name : String) : Rx :=
  seqList [litS "querySelector", .optR (litS "All"), litS "(", .starC pySpace,
           .cls quoteC, litS ".", .grp 1 (litS name), .cls quoteSpParen]

/-- Pattern 5, `'getElementsByClassName'` (line 108). -/
def pat5 (name : String) : Rx :=
  seqList [litS "getElementsByClassName", litS "(", .starC pySpace,
           .cls quoteC, .grp 1 (litS name), .cls quoteC]

/-- Pattern 6, `'class assignment'` (line 111); the leading alternation is
    non-capturing. -/
def pat6 (name : String) : Rx :=
  seqList [altList [litS "className", litS "cssClass", litS "klass", litS "cls"],
           .starC pySpace, litS "=", .starC pySpace,
           .cls quoteC, wordInValue name 1, .cls quoteC]

/-- Pattern 7, `'matches method'` (line 114). -/
def pat7 (name : String) : Rx :=
  seqList [altList [litS "matchesSelector", litS "matches", litS "closest"],
           litS "(", .starC pySpace,
           .cls quoteC, litS ".", .grp 1 (litS name), .cls quoteSpParen]

/-- Pattern 8, `'className property'` (line 117). -/
def pat8 (name : String) : Rx :=
  seqList [litS ".className", .starC pySpace, litS "=", .starC pySpace,
           .cls quoteC, wordInValue name 1, .cls quoteC]

/-- Pattern 9, `'class selector string'` (line 120). -/
def pat9 (name : String) : Rx :=
  seqList [.cls quoteC, litS ".", .grp 1 (litS name), .cls quoteC]

/-- The ordered pattern list of `find_class_references` (lines 94-121). -/
def refPatterns (name : String) : List (Rx × String) :=
  [(pat1 name, "JSX attribute"), (pat2 name, "JSX expression"),
   (pat3 name, "classList method"), (pat4 name, "querySelector"),
   (pat5 name, "getElementsByClassName"), (pat6 name, "class assignment"),
   (pat7 name, "matches method"), (pat8 name, "className property"),
   (pat9 name, "class selector string")]

/-- One returned tuple `(class_start, class_end, match_type, context)`. -/
structure ClassRef where
  rstart : Nat
  rstop : Nat
  rtype : String
  rctx : List Char
deriving DecidableEq

/-- Lines 123-135: collect each match of one pattern, extracting the span
    of the class-name group (`2 if match.lastindex >= 2 else 1`). -/
def refsOfPattern (content : List Char) (re : Rx) (ty : String) : List ClassRef :=
  (finditer re content).filterMap (fun m =>
    let li := lastGroupIndex m.2.2
    let cg := if 2 ≤ li then 2 else 1
    if cg ≤ li then
      (groupSpan m.2.2 cg).map (fun sp =>
        ⟨sp.1, sp.2, ty, (content.drop m.1).take (m.2.1 - m.1)⟩)
    else none)

/-- `find_class_references` (rename_css_classes.py lines 86-137): the
    union, in pattern order, of every pattern's matches. -/
def find_class_references (content : List Char) (class_name : String) : List ClassRef :=
  ((refPatterns class_name).map (fun pt => refsOfPattern content pt.1 pt.2)).flatten

/-! ## rename_css_classes.py — rewrite engine (lines 57-71, 140-244)

The interactive prompt is modelled by an oracle: the list of keys the
operator presses (each element one of the accepted keys `y`/`n`/`s`/`a`;
the prompt loop discards other keys, so they are not modelled).  If the
oracle is exhausted the model answers `n`; theorems about interactive
runs supply enough keys, so this default is never load-bearing. -/

/-- The evolving state of `process_file`'s scanning loops. -/
structure PFState where
  changed : Bool
  globalYes : Bool
  decisions : List Char
  prompts : Nat
  queued : List (Nat × Nat × String)
  skipped : Bool

/-- The observable outcome of one `process_file` call.  `written` is the
    content passed to `path.write_text` (`none` when nothing is written),
    `backedUp` whether a `.bak` copy was made, `globalYesOut` the final
    value of the function's *local* `global_yes` variable, which the
    caller in `main` never reads back. -/
structure PFResult where
  changed : Bool
  skipped : Bool
  written : Option (List Char)
  backedUp : Bool
  prompts : Nat
  globalYesOut : Bool
  decisionsLeft : List Char
deriving DecidableEq

/-- Lines 158-194, one occurrence: pick the choice
    (`all_yes or global_yes` first, then `dry_run`, else prompt), apply the
    `a` upgrade, and either stop on `s` (early `return changed`),
    queue the edit on `y`, or continue. -/
def procOccs (dryRun allYes : Bool) : List (Nat × Nat × String) → PFState → PFState
  | [], st => st
  | occ :: rest, st =>
    let pr :=
      if allYes || st.globalYes then (('y' : Char), st)
      else if dryRun then (('n' : Char), st)
      else
        match st.decisions with
        | d :: ds => (d, { st with decisions := ds, prompts := st.prompts + 1 })
        | [] => (('n' : Char), { st with prompts := st.prompts + 1 })
    let st1 := if pr.1 = 'a' then { pr.2 with globalYes := true } else pr.2
    let c := if pr.1 = 'a' then 'y' else pr.1
    if c = 's' then { st1 with skipped := true }
    else if c = 'y' then
      procOccs dryRun allYes rest
        { st1 with queued := st1.queued ++ [occ], changed := true }
    else procOccs dryRun allYes rest st1

/-- Strict descending lexicographic comparison on
    (start, end, replacement), the order of Python's
    `all_changes.sort(reverse=True)`. -/
def changeGt (a b : Nat × Nat × String) : Bool :=
  b.1 < a.1 || (a.1 = b.1 && (b.2.1 < a.2.1
    || (a.2.1 = b.2.1 && pyStrLt b.2.2.toList a.2.2.toList)))

/-- Stable insertion keeping an element after every element it does not
    strictly exceed. -/
def insertDesc (x : Nat × Nat × String) : List (Nat × Nat × String) → List (Nat × Nat × String)
  | [] => [x]
  | y :: ys => if changeGt x y then x :: y :: ys else y :: insertDesc x ys

/-- `all_changes.sort(reverse=True)` (line 199): the stable descending
    sort of the queued changes (Python's sort is stable; any stable sort
    yields the same list). -/
def sortChangesDesc (l : List (Nat × Nat × String)) : List (Nat × Nat × String) :=
  l.foldl (fun acc x => insertDesc x acc) []

/-- `content = content[:start] + replacement + content[end:]` (line 204). -/
def applyChange (content : List Char) (ch : Nat × Nat × String) : List Char :=
  content.take ch.1 ++ ch.2.2.toList ++ content.drop ch.2.1

/-- `process_file` (rename_css_classes.py lines 140-212): scan every
    mapping entry's references against the (fixed) original content,
    decide each occurrence, and if anything was accepted and this is not a
    dry run, splice all queued edits in descending-position order, back the
    file up unless disabled, and write.  An `s` answer returns early:
    nothing is ever written for that file. -/
def process_file (content : List Char) (mapping : List (String × String))
    (dryRun allYes noBackup globalYes : Bool) (decisions : List Char) : PFResult :=
  let occs := (mapping.map (fun en =>
    (find_class_references content en.1).map (fun r => (r.rstart, r.rstop, en.2)))).flatten
  let st := procOccs dryRun allYes occs ⟨false, globalYes, decisions, 0, [], false⟩
  if st.skipped then
    ⟨st.changed, true, none, false, st.prompts, st.globalYes, st.decisions⟩
  else if st.changed && !dryRun then
    ⟨st.changed, false, some ((sortChangesDesc st.queued).foldl applyChange content),
     !noBackup, st.prompts, st.globalYes, st.decisions⟩
  else
    ⟨st.changed, false, none, false, st.prompts, st.globalYes, st.decisions⟩

/-- The outcome of `main`'s file loop (lines 232-242). -/
structure RunResult where
  fileResults : List PFResult
  anyChanges : Bool
  decisionsLeft : List Char
deriving DecidableEq

/-- `main`'s loop over the discovered files (lines 232-242): files are
    processed in order; the operator's key stream is shared across files;
    `main` passes its own `global_yes` variable (initialised `False` at
    line 233) to every `process_file` call and never reassigns it, so the
    updated local value of one call does not reach the next. -/
def runFiles (mapping : List (String × String)) (dryRun allYes noBackup globalYes : Bool) :
    List (List Char) → List Char → RunResult
  | [], ds => ⟨[], false, ds⟩
  | f :: fs, ds =>
    let r := process_file f mapping dryRun allYes noBackup globalYes ds
    let rest := runFiles mapping dryRun allYes noBackup globalYes fs r.decisionsLeft
    ⟨r :: rest.fileResults, r.changed || rest.anyChanges, rest.decisionsLeft⟩

/-- Lines 243-244: `sys.exit(1)` iff this was a dry run and any file
    reported prospective changes; otherwise the process ends with 0. -/
def mainExitCode (dryRun anyChanges : Bool) : Nat :=
  if dryRun && anyChanges then 1 else 0

/-- Python dict assignment `mapping[old] = new` on an association list in
    insertion order: overwrite in place, or append a new key. -/
def dictInsert (m : List (String × String)) (k v : String) : List (String × String) :=
  if m.any (fun p => decide (p.1 = k)) then
    m.map (fun p => if p.1 = k then (k, v) else p)
  else m ++ [(k, v)]

/-- `pair.split(":", 1)` unpacked into two parts (lines 62-65): `none`
    models the `ValueError` that aborts the run for a pair without a colon. -/
def splitPairOnce (pair : String) : Option (String × String) :=
  let l := pair.toList
  if l.contains ':' then
    some ((l.takeWhile (fun c => !(c = ':'))).asString,
          ((l.dropWhile (fun c => !(c = ':'))).drop 1).asString)
  else none

/-- Lines 61-66: fold the CLI `OLD:NEW` pairs into the mapping;
    a malformed pair is fatal (`sys.exit`). -/
def addPairs : List (String × String) → List String → Except String (List (String × String))
  | m, [] => .ok m
  | m, pair :: rest =>
    match splitPairOnce pair with
    | some en => addPairs (dictInsert m en.1 en.2) rest
    | none => .error ("Invalid mapping pair " ++ pair)

/-- `load_mapping` (rename_css_classes.py lines 57-71): build the mapping
    from the optional `--map` file (modelled as its parsed key/value list)
    and the CLI pairs, exit fatally if it is empty, and only then filter
    out comment keys (those starting with `/*`).  `Except.error` models
    `sys.exit` with a message. -/
def load_mapping (mapFile : Option (List (String × String))) (pairs : List String) :
    Except String (List (String × String)) :=
  match addPairs (mapFile.getD []) pairs with
  | .error e => .error e
  | .ok mapping =>
    if mapping.isEmpty then .error "No mappings supplied"
    else .ok (mapping.filter (fun p => !(pyStartswith p.1 "/*")))

/-! ## Claim theorems -/

/-- C1: the claim states that `{"color: red"}` classifies LOW,
    `{"margin-top: 4px"}` MEDIUM and `{"display: flex", "color: red"}` HIGH
    in any iteration order.  The LOW and HIGH parts hold (both orders of the
    two-element set are checked), but `classify_risk` returns HIGH — not
    MEDIUM — for `{"margin-top: 4px"}`: `margin-top` passes the HIGH-tier
    dash-suffix test `prop.startswith('margin-')`, which is evaluated before
    the MEDIUM tier, so the MEDIUM branch never fires. -/
theorem classify_risk_tier_examples :
    classify_risk ["color: red"] = "LOW"
    ∧ classify_risk ["margin-top: 4px"] = "HIGH"
    ∧ classify_risk ["display: flex", "color: red"] = "HIGH"
    ∧ classify_risk ["color: red", "display: flex"] = "HIGH" := by decide

/-- C2: the claimed overlap deduplication does not exist.  On
    `a.className = "btn"` three pattern categories (JSX attribute, class
    assignment, className property) locate the very same span (15, 18), all
    three references are returned, and an accept-all run queues and splices
    all three edits, rewriting `btn` to `buttontonton` instead of `button`. -/
theorem overlapping_references_all_spliced :
    ((find_class_references "a.className = \"btn\"".toList "btn").map
        (fun r => (r.rstart, r.rstop, r.rtype))) =
      [(15, 18, "JSX attribute"), (15, 18, "class assignment"),
       (15, 18, "className property")]
    ∧ (process_file "a.className = \"btn\"".toList [("btn", "button")]
        false true true false []).written
      = some "a.className = \"buttontonton\"".toList := by decide

/-- C3 counterexample: scanning `className="btn primary"` for `btn` returns
    two references, not the claimed single one (two pattern categories match
    the same occurrence and no deduplication happens). -/
theorem btn_single_reference_refuted :
    (find_class_references "className=\"btn primary\"".toList "btn").length = 2 := by decide

/-- C3 amended: scanning `className="btn-primary"` for `btn` yields zero
    references (word-boundary rejection), and scanning
    `className="btn primary"` yields one reference per matching category:
    exactly two (JSX attribute and class assignment), both locating the same
    span (11, 14). -/
theorem btn_word_boundary_references :
    find_class_references "className=\"btn-primary\"".toList "btn" = []
    ∧ (find_class_references "className=\"btn primary\"".toList "btn").map
        (fun r => (r.rstart, r.rstop, r.rtype)) =
      [(11, 14, "JSX attribute"), (11, 14, "class assignment")] := by decide

/-- C4: declarations leak across rules that do not mention the class.  For
    the stylesheet `.a.b { color: red }  .a { margin: 0 }`, the record of
    `b` ends up with `{"color: red", "margin: 0"}` although no selector of
    the second rule contains the token `b` (its only token is `a`): classes
    `a` and `b`, both first seen in selector `.a.b`, share one declaration
    set object, and the second rule's in-place update through `a` mutates it. -/
theorem extract_leaks_declarations_across_shared_sets :
    declsOf (extract_classes_from_css "styles.css"
        [⟨true, [".a.b"], [.decl "color" "red"]⟩,
         ⟨true, [".a"], [.decl "margin" "0"]⟩]) "b"
      = ({"color: red", "margin: 0"} : Finset String)
    ∧ cssClassTokens ".a.b" = ["a", "b"]
    ∧ cssClassTokens ".a" = ["a"] := by decide

/-- C6: in plain dry-run mode (no `--all-yes`) every occurrence is
    auto-declined, so `changed` can never become true and the process exits
    0 even when a real run would rewrite the file: on
    `x.classList.add("btn")` with mapping `btn → button` the dry run issues
    no prompt, writes nothing and reports no prospective changes (exit 0),
    while the same input in a real accept-all run writes the renamed file. -/
theorem dry_run_exit_zero_despite_pending_change :
    (runFiles [("btn", "button")] true false true false
        ["x.classList.add(\"btn\")".toList] []).anyChanges = false
    ∧ mainExitCode true (runFiles [("btn", "button")] true false true false
        ["x.classList.add(\"btn\")".toList] []).anyChanges = 0
    ∧ ((runFiles [("btn", "button")] true false true false
        ["x.classList.add(\"btn\")".toList] []).fileResults.map
          (fun r => (r.prompts, r.written))) = [(0, none)]
    ∧ (process_file "x.classList.add(\"btn\")".toList [("btn", "button")]
        false true true false []).written
      = some "x.classList.add(\"button\")".toList := by decide

/-- C8: the accept-all-remaining answer does not survive into later files.
    With two files each containing two occurrences of `btn` and the key
    stream `a`, `n`, `n`: in file 1 the first occurrence prompts, `a` is
    answered, and the second occurrence is auto-accepted without a prompt
    (1 prompt, both renamed); but `main` never reads back the updated local
    flag, so file 2 prompts again for both occurrences (2 prompts) and, the
    operator declining, nothing is renamed there — contradicting the claim
    that every subsequent occurrence of the run is auto-accepted without
    prompting. -/
theorem accept_all_does_not_cross_files :
    ((runFiles [("btn", "button")] false false true false
        ["x.classList.add(\"btn\"); y.classList.add(\"btn\")".toList,
         "x.classList.add(\"btn\"); y.classList.add(\"btn\")".toList]
        ['a', 'n', 'n']).fileResults.map
      (fun r => (r.prompts, r.changed, r.written))) =
      [(1, true, some "x.classList.add(\"button\"); y.classList.add(\"button\")".toList),
       (2, false, none)] := by decide

/-- If `b` is a prefix of `a`, anything starting with `a` starts with `b`. -/
theorem pyStartswith_of_longer {s a b : String}
    (hba : b.toList.isPrefixOf a.toList = true) (h : pyStartswith s a = true) :
    pyStartswith s b = true := by
  unfold pyStartswith at *
  rw [List.isPrefixOf_iff_prefix] at *
  exact hba.trans h

/-- Every property passing the MEDIUM-tier test passes the HIGH-tier test:
    each member of `MED_RISK_PROPS` starts with `margin-` or `padding-`,
    and `margin` and `padding` are in `HIGH_RISK_PROPS`. -/
theorem med_imp_high (prop : String) (h : isMedRisk prop = true) :
    isHighRisk prop = true := by
  unfold isMedRisk at h
  rcases Bool.or_eq_true_iff.mp h with h1 | h2
  · rcases List.any_eq_true.mp h1 with ⟨p, hp, he⟩
    have : prop = p := (beq_iff_eq.mp he).symm
    subst this
    fin_cases hp <;> decide
  · rcases List.any_eq_true.mp h2 with ⟨p, hp, he⟩
    fin_cases hp <;>
      first
      | exact Bool.or_eq_true_iff.mpr (Or.inr (List.any_eq_true.mpr
          ⟨"margin", by decide, pyStartswith_of_longer (by decide) he⟩))
      | exact Bool.or_eq_true_iff.mpr (Or.inr (List.any_eq_true.mpr
          ⟨"padding", by decide, pyStartswith_of_longer (by decide) he⟩))

/-- C10: `classify_risk` can only return HIGH or LOW, never MEDIUM: every
    property satisfying the MEDIUM-tier membership-or-dash-suffix test also
    satisfies the HIGH-tier dash-suffix test against `margin` or `padding`,
    which is evaluated first for each declaration, so the MEDIUM return is
    unreachable. -/
theorem classify_risk_never_medium :
    (∀ prop : String, isMedRisk prop = true → isHighRisk prop = true)
    ∧ (∀ declarations : List String,
        classify_risk declarations = "HIGH" ∨ classify_risk declarations = "LOW") := by
  refine ⟨med_imp_high, ?_⟩
  intro declarations
  induction declarations with
  | nil => exact Or.inr rfl
  | cons d rest ih =>
    show classify_risk (d :: rest) = "HIGH" ∨ classify_risk (d :: rest) = "LOW"
    rw [classify_risk]
    cases h1 : isHighRisk (propOf d) with
    | true => simp
    | false =>
      cases h2 : isMedRisk (propOf d) with
      | true => exact absurd (med_imp_high _ h2) (by simp [h1])
      | false => simpa using ih

/-- Witness for C10 at concrete inputs. -/
theorem classify_risk_never_medium_witness :
    isHighRisk "margin-inline" = true
    ∧ (classify_risk ["padding-left: 2px"] = "HIGH"
        ∨ classify_risk ["padding-left: 2px"] = "LOW") :=
  ⟨classify_risk_never_medium.1 "margin-inline" (by decide),
   classify_risk_never_medium.2 ["padding-left: 2px"]⟩


/-- `pyStrLt` is asymmetric. -/
theorem pyStrLt_asymm : ∀ a b : List Char, pyStrLt a b = true → pyStrLt b a = false
  | [], [], h => by simp [pyStrLt] at h
  | [], _ :: _, _ => by simp [pyStrLt]
  | _ :: _, [], h => by simp [pyStrLt] at h
  | x :: xs, y :: ys, h => by
    simp only [pyStrLt] at h ⊢
    by_cases h1 : x.toNat < y.toNat
    · have h2 : ¬ y.toNat < x.toNat := by omega
      simp [h1, h2]
    · by_cases h2 : y.toNat < x.toNat
      · simp [h1, h2] at h
      · simp only [h1, h2, if_false] at h ⊢
        simp [pyStrLt_asymm xs ys h]

/-- Lists neither of which is `pyStrLt`-below the other are equal. -/
theorem pyStrLt_antisymm : ∀ a b : List Char,
    pyStrLt a b = false → pyStrLt b a = false → a = b
  | [], [], _, _ => rfl
  | [], _ :: _, h, _ => by simp [pyStrLt] at h
  | _ :: _, [], _, h => by simp [pyStrLt] at h
  | x :: xs, y :: ys, h, h' => by
    simp only [pyStrLt] at h h'
    by_cases h1 : x.toNat < y.toNat
    · simp [h1] at h
    · by_cases h2 : y.toNat < x.toNat
      · simp [h2] at h'
      · simp only [h1, h2, if_false] at h h'
        have hxy : x = y := Char.ext (UInt32.ext (by
          have e1 : x.val.toNat = x.toNat := rfl
          have e2 : y.val.toNat = y.toNat := rfl
          omega))
        rw [hxy, pyStrLt_antisymm xs ys h h']

/-- Transitivity of the non-strict order underlying `pyStrLt`. -/
theorem pyStrLt_false_trans : ∀ a b c : List Char,
    pyStrLt b a = false → pyStrLt c b = false → pyStrLt c a = false
  | [], b, c, h, h' => by
    cases c with
    | nil => simp [pyStrLt]
    | cons z zs => simp [pyStrLt]
  | x :: xs, [], c, h, h' => by simp [pyStrLt] at h
  | x :: xs, y :: ys, [], h, h' => by simp [pyStrLt] at h'
  | x :: xs, y :: ys, z :: zs, h, h' => by
    simp only [pyStrLt] at h h' ⊢
    by_cases hyx : y.toNat < x.toNat
    · simp [hyx] at h
    · by_cases hzy : z.toNat < y.toNat
      · simp [hzy] at h'
      · by_cases hzx : z.toNat < x.toNat
        · exact absurd hzx (by omega)
        · by_cases hxz : x.toNat < z.toNat
          · simp [hzx, hxz]
          · have hxy : x.toNat = y.toNat := by omega
            have hyz : y.toNat = z.toNat := by omega
            simp only [hxy, lt_irrefl, if_false] at h
            simp only [hyz, lt_irrefl, if_false] at h'
            simp only [hzx, hxz, if_false]
            exact pyStrLt_false_trans xs ys zs h h'

instance : IsTotal String pyLe := by
  constructor
  intro a b
  by_cases h : pyStrLt b.toList a.toList = true
  · exact Or.inr (pyStrLt_asymm _ _ h)
  · exact Or.inl (by simpa using h)

instance : IsTrans String pyLe := by
  constructor
  intro a b c h h'
  exact pyStrLt_false_trans _ _ _ h h'

instance : IsAntisymm String pyLe := by
  constructor
  intro a b h h'
  cases a with
  | mk da =>
    cases b with
    | mk db => exact congrArg String.mk (pyStrLt_antisymm da db h' h)

/-- Membership in one hash bucket of `find_duplicate_rules`. -/
theorem mem_dup_bucket (m : List (String × List String)) (h c : String) :
    (c ∈ ((m.filter (fun p => decide (hash_declarations p.2 = h))).map Prod.fst)
      ↔ ∃ d, (c, d) ∈ m ∧ hash_declarations d = h) := by
  simp only [List.mem_map, List.mem_filter, decide_eq_true_eq]
  constructor
  · rintro ⟨⟨c0, d⟩, ⟨hm, hh⟩, rfl⟩
    exact ⟨d, hm, hh⟩
  · rintro ⟨d, hm, hh⟩
    exact ⟨(c, d), ⟨hm, hh⟩, rfl⟩

/-- In an association list with distinct keys (a Python dict), a key
    determines its value. -/
theorem nodup_keys_lookup {m : List (String × List String)} {c : String}
    {d d' : List String} (hn : (m.map Prod.fst).Nodup)
    (h1 : (c, d) ∈ m) (h2 : (c, d') ∈ m) : d = d' := by
  induction m with
  | nil => cases h1
  | cons p rest ih =>
    rcases List.nodup_cons.mp hn with ⟨hp, hrest⟩
    rcases List.mem_cons.mp h1 with e1 | m1 <;> rcases List.mem_cons.mp h2 with e2 | m2
    · cases e1.trans e2.symm; rfl
    · exfalso; exact hp (e1 ▸ (List.mem_map.mpr ⟨(c, d'), m2, rfl⟩))
    · exfalso; exact hp (e2 ▸ (List.mem_map.mpr ⟨(c, d), m1, rfl⟩))
    · exact ih hrest m1 m2

/-- A list with two distinct members has length at least two. -/
theorem one_lt_length_of_two_mem {l : List String} {a b : String}
    (ha : a ∈ l) (hb : b ∈ l) (hab : a ≠ b) : 1 < l.length := by
  cases l with
  | nil => cases ha
  | cons x xs =>
    cases xs with
    | nil =>
      rw [List.mem_singleton] at ha hb
      exact absurd (ha.trans hb.symm) hab
    | cons y ys => simp only [List.length_cons]; omega

/-- C5 amended: the canonical key is invariant under reordering of the
    declaration set (sorting makes insertion order irrelevant), and two
    distinct classes of the map are placed in the same duplicate group iff
    the canonical keys of their declaration sets — the concatenations of
    their lexicographically sorted declaration strings, the md5 hexdigest
    modelled as injective — are equal.  Set equality therefore implies
    grouping, and sets differing by one extra space in a value are never
    grouped; but, as the counterexample shows, unequal sets whose sorted
    concatenations coincide are also grouped, refuting the claim's
    only-if direction for raw set equality. -/
theorem duplicates_iff_equal_hash :
    (∀ l1 l2 : List String, l1.Perm l2 → hash_declarations l1 = hash_declarations l2)
    ∧ (∀ (m : List (String × List String)) (c1 c2 : String) (d1 d2 : List String),
        (m.map Prod.fst).Nodup → (c1, d1) ∈ m → (c2, d2) ∈ m → c1 ≠ c2 →
        (inSameDuplicateGroup m c1 c2 = true
          ↔ hash_declarations d1 = hash_declarations d2)) := by
  constructor
  · intro l1 l2 h
    unfold hash_declarations
    exact congrArg String.join (List.eq_of_perm_of_sorted
      ((List.perm_insertionSort _ l1).trans (h.trans (List.perm_insertionSort _ l2).symm))
      (List.sorted_insertionSort _ l1) (List.sorted_insertionSort _ l2))
  intro m c1 c2 d1 d2 hn h1 h2 hne
  unfold inSameDuplicateGroup find_duplicate_rules
  simp only [List.any_eq_true, List.mem_filter, List.mem_map, decide_eq_true_eq,
    Bool.and_eq_true, List.mem_dedup]
  constructor
  · rintro ⟨g, ⟨⟨hkey, hkm, hg⟩, hlen⟩, hc1, hc2⟩
    subst hg
    rcases hc1 with ⟨x1, hx1, rfl⟩
    rcases hc2 with ⟨x2, hx2, rfl⟩
    rcases (mem_dup_bucket m hkey x1).mp hx1 with ⟨e1, me1, hh1⟩
    rcases (mem_dup_bucket m hkey x2).mp hx2 with ⟨e2, me2, hh2⟩
    rw [nodup_keys_lookup hn h1 me1, nodup_keys_lookup hn h2 me2, hh1, hh2]
  · intro hh
    refine ⟨(hash_declarations d1,
      (m.filter (fun p => decide (hash_declarations p.2 = hash_declarations d1))).map Prod.fst),
      ⟨⟨hash_declarations d1, ⟨⟨c1, d1⟩, h1, rfl⟩, rfl⟩, ?_⟩, ?_, ?_⟩
    · have hm1 : c1 ∈ (m.filter
          (fun p => decide (hash_declarations p.2 = hash_declarations d1))).map Prod.fst :=
        (mem_dup_bucket m _ c1).mpr ⟨d1, h1, rfl⟩
      have hm2 : c2 ∈ (m.filter
          (fun p => decide (hash_declarations p.2 = hash_declarations d1))).map Prod.fst :=
        (mem_dup_bucket m _ c2).mpr ⟨d2, h2, hh.symm⟩
      exact one_lt_length_of_two_mem hm1 hm2 hne
    · exact ⟨c1, (mem_dup_bucket m _ c1).mpr ⟨d1, h1, rfl⟩, rfl⟩
    · exact ⟨c2, (mem_dup_bucket m _ c2).mpr ⟨d2, h2, hh.symm⟩, rfl⟩

/-- C5 counterexample: `x ↦ {"color: red"}` and `y ↦ {"color: r", "ed"}`
    are unequal declaration sets (`"ed"` belongs to one and not the other),
    yet both sorted concatenations are the string `color: red`, so
    `find_duplicate_rules` puts `x` and `y` in one group — refuting
    "grouped only if the declaration sets are exactly equal". -/
theorem duplicate_group_join_collision :
    inSameDuplicateGroup [("x", ["color: red"]), ("y", ["color: r", "ed"])] "x" "y" = true
    ∧ hash_declarations ["color: red"] = hash_declarations ["color: r", "ed"]
    ∧ ["color: red"].contains "ed" = false
    ∧ ["color: r", "ed"].contains "ed" = true := by decide

/-- Witness for C5 at concrete inputs: the same declaration set inserted in
    two different orders is grouped. -/
theorem duplicates_iff_equal_hash_witness :
    hash_declarations ["color: red", "margin: 0"]
      = hash_declarations ["margin: 0", "color: red"]
    ∧ inSameDuplicateGroup
        [("x", ["color: red", "margin: 0"]), ("y", ["margin: 0", "color: red"])]
        "x" "y" = true :=
  ⟨duplicates_iff_equal_hash.1 _ _ (List.Perm.swap _ _ _),
   (duplicates_iff_equal_hash.2 _ "x" "y"
      ["color: red", "margin: 0"] ["margin: 0", "color: red"]
      (by decide) (by decide) (by decide) (by decide)).mpr
    (duplicates_iff_equal_hash.1 _ _ (List.Perm.swap _ _ _))⟩

/-- C9: an `s` (skip-file) answer abandons the file: whenever the scan ends
    in the skipped state — regardless of how many earlier occurrences were
    accepted — nothing is written and no backup is made, so the file on
    disk stays byte-identical; and the main loop still produces one result
    per file, so processing continues with the remaining files. -/
theorem skip_file_discards_edits :
    (∀ (content : List Char) (mapping : List (String × String))
        (dryRun allYes noBackup globalYes : Bool) (decisions : List Char),
      (process_file content mapping dryRun allYes noBackup globalYes decisions).skipped = true →
      (process_file content mapping dryRun allYes noBackup globalYes decisions).written = none
        ∧ (process_file content mapping dryRun allYes noBackup globalYes decisions).backedUp
            = false)
    ∧ (∀ (mapping : List (String × String)) (dryRun allYes noBackup globalYes : Bool)
        (files : List (List Char)) (decisions : List Char),
      (runFiles mapping dryRun allYes noBackup globalYes files decisions).fileResults.length
        = files.length) := by
  constructor
  · intro content mapping dryRun allYes noBackup globalYes decisions h
    simp only [process_file] at h ⊢
    split at h
    · next hs => simp [hs]
    · split at h <;> simp at h
  · intro mapping dryRun allYes noBackup globalYes files
    induction files with
    | nil => intro ds; rfl
    | cons f fs ih => intro ds; simp [runFiles, ih]

/-- Witness for C9: in a file with two occurrences, the first accepted and
    the second answered skip-file, edits were queued (`changed = true`) yet
    nothing is written and no backup is made. -/
theorem skip_file_discards_edits_witness :
    (process_file "x.classList.add(\"btn\"); y.classList.add(\"btn\")".toList
        [("btn", "button")] false false false false ['y', 's']).skipped = true
    ∧ (process_file "x.classList.add(\"btn\"); y.classList.add(\"btn\")".toList
        [("btn", "button")] false false false false ['y', 's']).changed = true
    ∧ (process_file "x.classList.add(\"btn\"); y.classList.add(\"btn\")".toList
        [("btn", "button")] false false false false ['y', 's']).written = none :=
  ⟨by decide, by decide,
   (skip_file_discards_edits.1 "x.classList.add(\"btn\"); y.classList.add(\"btn\")".toList
      [("btn", "button")] false false false false ['y', 's'] (by decide)).1⟩

/-- C7 amended: the fatal emptiness check runs *before* comment filtering:
    an absent mapping (no `--map`, no pairs) is fatal, but a non-empty
    mapping whose keys are all comment keys passes the check, is filtered
    to an empty mapping, and the run proceeds — though with an empty
    mapping `process_file` can change and write nothing. -/
theorem load_mapping_empty_check_precedes_filter :
    (∃ e, load_mapping none [] = Except.error e)
    ∧ (∀ m : List (String × String), m ≠ [] →
        load_mapping (some m) []
          = Except.ok (m.filter (fun p => !(pyStartswith p.1 "/*"))))
    ∧ (∀ (content : List Char) (dryRun allYes noBackup globalYes : Bool) (ds : List Char),
        (process_file content [] dryRun allYes noBackup globalYes ds).written = none
        ∧ (process_file content [] dryRun allYes noBackup globalYes ds).changed = false) := by
  refine ⟨⟨"No mappings supplied", rfl⟩, ?_, ?_⟩
  · intro m hm
    cases m with
    | nil => exact absurd rfl hm
    | cons a as => rfl
  · intro content dryRun allYes noBackup globalYes ds
    exact ⟨rfl, rfl⟩

/-- C7 counterexample: a mapping consisting only of the comment entry
    `/* phase1` is *not* fatal — `load_mapping` returns the empty mapping
    (`Except.ok []`), because the emptiness check precedes comment
    filtering, contradicting the claimed fatal termination. -/
theorem load_mapping_comment_only_not_fatal :
    load_mapping (some [("/* phase1", "deprecated")]) [] = Except.ok [] := rfl

/-- Witness for C7 at concrete inputs. -/
theorem load_mapping_empty_check_precedes_filter_witness :
    load_mapping (some [("btn", "button"), ("/* note", "x")]) []
      = Except.ok ([("btn", "button"), ("/* note", "x")].filter
          (fun p => !(pyStartswith p.1 "/*")))
    ∧ (process_file "x.classList.add(\"btn\")".toList [] false false false false []).written
        = none :=
  ⟨load_mapping_empty_check_precedes_filter.2.1 _ (by decide),
   (load_mapping_empty_check_precedes_filter.2.2
      "x.classList.add(\"btn\")".toList false false false false []).1⟩
